import Mathlib

/-!
# Shallow embedding of the trufflescan IKE packet builder

This file embeds the two Rust modules `src/ike.rs` (IKE version 1) and
`src/ikev2.rs` (IKE version 2) of the trufflescan repository as executable
Lean definitions, and proves the specification claims about them.

Modelling conventions:
* Machine integers (`u8`, `u16`, `u32`, `u64`, the network-endian `U16`,
  `U32`, `U64` of the `zerocopy` crate) are modelled as `Nat`.  Wherever the
  Rust types themselves bound a value (e.g. a `u8` struct field that is only
  ever assigned a checked length `<= 255`) the bound is carried by the
  theorems' hypotheses instead of a redundant `% 2^w`; where an external,
  unbounded input is cast (`as u16` on a `Vec` length) the wrap-around
  `% 65536` is written out explicitly.
* Rust panics (`expect`, out-of-bounds indexing) make a function return
  `Except SetError _`; the two reachable panic sites of `set_transforms` /
  `set_transforms_v2` are distinguished by the two `SetError` constructors.
* `zerocopy::AsBytes` serialization of the `#[repr(packed)]` structs is
  modelled field by field: network-endian fields in big-endian byte order,
  the two plain (native-endian) integer fields `responder_spi` (v1) and
  `message_id` in little-endian order (the build targets little-endian; the
  fields are zero in every built packet, and no theorem depends on their
  byte order, only on their width).
-/

set_option maxRecDepth 8000

namespace Ike

/-- One IKEv1 attribute: 16-bit type and 16-bit value-or-length
(struct `Attribute` in ike.rs). -/
structure Attribute where
  attribute_type : Nat
  attribute_value_or_length : Nat
deriving DecidableEq, Repr

/-- The fixed 8-byte head of an IKEv1 transform (struct `TransformPayload`). -/
structure TransformPayload where
  next_payload : Nat
  reserved : Nat
  length : Nat
  transform_number : Nat
  transform_id : Nat
  reserved2 : Nat
deriving DecidableEq, Repr

/-- One full IKEv1 transform: head plus six fixed attributes plus the 32-bit
life-duration value (struct `Transform`). -/
structure Transform where
  transform_payload : TransformPayload
  encryption_attribute : Attribute
  hash_attribute : Attribute
  diffie_hellman_attribute : Attribute
  authentication_method_attribute : Attribute
  life_type_attribute : Attribute
  life_duration_attribute : Attribute
  life_duration_value : Nat
deriving DecidableEq, Repr

/-- IKEv1 packet header (struct `IkeV1Header`). -/
structure IkeV1Header where
  initiator_spi : Nat
  responder_spi : Nat
  next_payload : Nat
  version : Nat
  exchange_type : Nat
  flag : Nat
  message_id : Nat
  length : Nat
deriving DecidableEq, Repr

/-- IKEv1 Security Association payload (struct `SecurityAssociationV1`). -/
structure SecurityAssociationV1 where
  sa_next_payload : Nat
  reserved : Nat
  sa_length : Nat
  sa_doi : Nat
  sa_situation : Nat
deriving DecidableEq, Repr

/-- IKEv1 Proposal payload (struct `ProposalPayload`). -/
structure ProposalPayload where
  next_payload : Nat
  reserved : Nat
  length : Nat
  proposal : Nat
  protocol_id : Nat
  spi_size : Nat
  number_of_transforms : Nat
deriving DecidableEq, Repr

/-- The IKEv1 wrapper struct (struct `IkeV1`). -/
structure IkeV1 where
  header : IkeV1Header
  security_association_payload : SecurityAssociationV1
  proposal_payload : ProposalPayload
  transform : List Transform
deriving DecidableEq, Repr

/-- IKEv1 payload types (enum `PayloadTypeV1`). -/
inductive PayloadTypeV1 where
  | NoNextPayload
  | SecurityAssociation
  | Proposal
  | Transform
  | KeyExchange
  | Identification
  | Certificate
  | CertificateRequest
  | Hash
  | Signature
  | Nonce
  | Notification
  | VendorID
deriving DecidableEq, Fintype, Repr

/-- `impl From<PayloadTypeV1> for u8` in ike.rs. -/
def PayloadTypeV1.to_u8 : PayloadTypeV1 → Nat
  | .NoNextPayload => 0
  | .SecurityAssociation => 1
  | .Proposal => 2
  | .Transform => 3
  | .KeyExchange => 4
  | .Identification => 5
  | .Certificate => 6
  | .CertificateRequest => 7
  | .Hash => 8
  | .Signature => 9
  | .Nonce => 10
  | .Notification => 11
  | .VendorID => 13

/-- `PayloadTypeV1::try_from_u8` in ike.rs. -/
def PayloadTypeV1.try_from_u8 : Nat → Option PayloadTypeV1
  | 0 => some .NoNextPayload
  | 1 => some .SecurityAssociation
  | 2 => some .Proposal
  | 3 => some .Transform
  | 4 => some .KeyExchange
  | 5 => some .Identification
  | 6 => some .Certificate
  | 7 => some .CertificateRequest
  | 8 => some .Hash
  | 9 => some .Signature
  | 10 => some .Nonce
  | 11 => some .Notification
  | 13 => some .VendorID
  | _ => none

/-- IKEv1 exchange types (enum `ExchangeType`). -/
inductive ExchangeType where
  | IdentityProtect
  | AggressiveExchange
  | Informational
  | QuickMode
  | NewGroupMode
deriving DecidableEq, Fintype, Repr

/-- `impl From<ExchangeType> for u8` in ike.rs. -/
def ExchangeType.to_u8 : ExchangeType → Nat
  | .IdentityProtect => 2
  | .AggressiveExchange => 4
  | .Informational => 5
  | .QuickMode => 32
  | .NewGroupMode => 33

/-- `ExchangeType::try_from_u8` in ike.rs. -/
def ExchangeType.try_from_u8 : Nat → Option ExchangeType
  | 2 => some .IdentityProtect
  | 4 => some .AggressiveExchange
  | 5 => some .Informational
  | 32 => some .QuickMode
  | 33 => some .NewGroupMode
  | _ => none

/-- IKEv1 encryption algorithms (enum `EncryptionAlgorithmV1`). -/
inductive EncryptionAlgorithmV1 where
  | DES
  | IDEA
  | Blowfish
  | Rc5
  | TrippleDES
  | Cast
  | AesCbc
  | Camellia
deriving DecidableEq, Fintype, Repr

/-- `impl From<EncryptionAlgorithmV1> for U16` in ike.rs. -/
def EncryptionAlgorithmV1.to_u16 : EncryptionAlgorithmV1 → Nat
  | .DES => 1
  | .IDEA => 2
  | .Blowfish => 3
  | .Rc5 => 4
  | .TrippleDES => 5
  | .Cast => 6
  | .AesCbc => 7
  | .Camellia => 8

/-- `EncryptionAlgorithmV1::try_from_u8` in ike.rs. -/
def EncryptionAlgorithmV1.try_from_u8 : Nat → Option EncryptionAlgorithmV1
  | 1 => some .DES
  | 2 => some .IDEA
  | 3 => some .Blowfish
  | 4 => some .Rc5
  | 5 => some .TrippleDES
  | 6 => some .Cast
  | 7 => some .AesCbc
  | 8 => some .Camellia
  | _ => none

/-- IKEv1 hash types (enum `HashType`). -/
inductive HashType where
  | MD5
  | SHA1
  | TIGER
  | AES128XCDC
  | SHA2_256
  | SHA2_384
  | SHA2_512
  | AES128CMAC
  | STREEBOG512
deriving DecidableEq, Fintype, Repr

/-- `impl From<HashType> for U16` in ike.rs. -/
def HashType.to_u16 : HashType → Nat
  | .MD5 => 1
  | .SHA1 => 2
  | .TIGER => 3
  | .AES128XCDC => 4
  | .SHA2_256 => 5
  | .SHA2_384 => 6
  | .SHA2_512 => 7
  | .AES128CMAC => 8
  | .STREEBOG512 => 9

/-- `HashType::try_from_u8` in ike.rs. -/
def HashType.try_from_u8 : Nat → Option HashType
  | 1 => some .MD5
  | 2 => some .SHA1
  | 3 => some .TIGER
  | 4 => some .AES128XCDC
  | 5 => some .SHA2_256
  | 6 => some .SHA2_384
  | 7 => some .SHA2_512
  | 8 => some .AES128CMAC
  | 9 => some .STREEBOG512
  | _ => none

/-- IKEv1 authentication methods (enum `AuthenticationMethod`). -/
inductive AuthenticationMethod where
  | PreSharedKey
  | DssSignatures
  | RsaSignatures
  | EncryptionWithRsa
  | RevisedEncryptionWithRsa
deriving DecidableEq, Fintype, Repr

/-- `impl From<AuthenticationMethod> for U16` in ike.rs. -/
def AuthenticationMethod.to_u16 : AuthenticationMethod → Nat
  | .PreSharedKey => 1
  | .DssSignatures => 2
  | .RsaSignatures => 3
  | .EncryptionWithRsa => 4
  | .RevisedEncryptionWithRsa => 5

/-- `AuthenticationMethod::try_from_u8` in ike.rs. -/
def AuthenticationMethod.try_from_u8 : Nat → Option AuthenticationMethod
  | 1 => some .PreSharedKey
  | 2 => some .DssSignatures
  | 3 => some .RsaSignatures
  | 4 => some .EncryptionWithRsa
  | 5 => some .RevisedEncryptionWithRsa
  | _ => none

/-- IKEv1 Diffie-Hellman groups (enum `DhGroup`). -/
inductive DhGroup where
  | MODP768bit
  | MODP1024bit
  | EC2N155
  | EC2N185
  | MODP1536bit
  | MODP2048bit
  | MODP3071bit
  | MODP4096bit
  | MODP6144bit
  | MODP8192bit
  | RandomECPGroup256bit
  | RandomECPGroup384bit
  | RandomECPGroup521bit
  | MODP2048With256bitPrimeOrder
  | BrainpoolP256r1
  | BrainpoolP384r1
  | BrainpoolP512r1
  | Curve25519
  | Curve448
  | GOST3410_2012_256
  | GOST3410_2012_512
deriving DecidableEq, Fintype, Repr

/-- `impl From<DhGroup> for U16` in ike.rs. -/
def DhGroup.to_u16 : DhGroup → Nat
  | .MODP768bit => 1
  | .MODP1024bit => 2
  | .EC2N155 => 3
  | .EC2N185 => 4
  | .MODP1536bit => 5
  | .MODP2048bit => 14
  | .MODP3071bit => 15
  | .MODP4096bit => 16
  | .MODP6144bit => 17
  | .MODP8192bit => 18
  | .RandomECPGroup256bit => 19
  | .RandomECPGroup384bit => 20
  | .RandomECPGroup521bit => 21
  | .MODP2048With256bitPrimeOrder => 24
  | .BrainpoolP256r1 => 28
  | .BrainpoolP384r1 => 29
  | .BrainpoolP512r1 => 30
  | .Curve25519 => 31
  | .Curve448 => 32
  | .GOST3410_2012_256 => 33
  | .GOST3410_2012_512 => 34

/-- `DhGroup::try_from_u8` in ike.rs. -/
def DhGroup.try_from_u8 : Nat → Option DhGroup
  | 1 => some .MODP768bit
  | 2 => some .MODP1024bit
  | 3 => some .EC2N155
  | 4 => some .EC2N185
  | 5 => some .MODP1536bit
  | 14 => some .MODP2048bit
  | 15 => some .MODP3071bit
  | 16 => some .MODP4096bit
  | 17 => some .MODP6144bit
  | 18 => some .MODP8192bit
  | 19 => some .RandomECPGroup256bit
  | 20 => some .RandomECPGroup384bit
  | 21 => some .RandomECPGroup521bit
  | 24 => some .MODP2048With256bitPrimeOrder
  | 28 => some .BrainpoolP256r1
  | 29 => some .BrainpoolP384r1
  | 30 => some .BrainpoolP512r1
  | 31 => some .Curve25519
  | 32 => some .Curve448
  | 33 => some .GOST3410_2012_256
  | 34 => some .GOST3410_2012_512
  | _ => none

/-- IKEv1 SA situations (enum `SaSituation`). -/
inductive SaSituation where
  | IdentityOnly
  | Secrecy
  | Integrity
deriving DecidableEq, Fintype, Repr

/-- `impl From<SaSituation> for U32` in ike.rs. -/
def SaSituation.to_u32 : SaSituation → Nat
  | .IdentityOnly => 1
  | .Secrecy => 2
  | .Integrity => 4

/-- `SaSituation::try_from_u32` in ike.rs (written as an `if` chain so that
the no-match branch is provable for every undocumented 32-bit value). -/
def SaSituation.try_from_u32 (value : Nat) : Option SaSituation :=
  if value = 1 then some .IdentityOnly
  else if value = 2 then some .Secrecy
  else if value = 4 then some .Integrity
  else none

/-- IKEv1 attribute types (enum `AttributeType` in ike.rs). -/
inductive AttributeType where
  | Encryption
  | HashType
  | AuthenticationMethod
  | DiffieHellmanGroup
  | LifeType
  | LifeDuration
deriving DecidableEq, Fintype, Repr

/-- `impl From<AttributeType> for U16` in ike.rs: the significant (top) bit is
set on every variant except `LifeDuration`. -/
def AttributeType.to_u16 : AttributeType → Nat
  | .Encryption => 1 ||| (1 <<< 15)
  | .HashType => 2 ||| (1 <<< 15)
  | .AuthenticationMethod => 3 ||| (1 <<< 15)
  | .DiffieHellmanGroup => 4 ||| (1 <<< 15)
  | .LifeType => 11 ||| (1 <<< 15)
  | .LifeDuration => 12

/-- The authentication-method loop range of `IkeV1::build_transforms`:
`(1..=5).chain(9..=11)`. -/
def authRange : List Nat := List.range' 1 5 ++ List.range' 9 3

/-- The Diffie-Hellman loop range of `IkeV1::build_transforms`:
`(1..=21).chain(24..=24).chain(28..=34)`. -/
def dhRange : List Nat := List.range' 1 21 ++ List.range' 24 1 ++ List.range' 28 7

/-- The hash-type loop range of `IkeV1::build_transforms`: `1..=6`. -/
def hashRange : List Nat := List.range' 1 6

/-- The encryption loop range of `IkeV1::build_transforms`: `1..=8`. -/
def encRange : List Nat := List.range' 1 8

/-- The transform record pushed by the inner loop body of
`IkeV1::build_transforms` for one `(auth_method, diffie_group, hash,
encryption)` combination. -/
def mk_transform (auth_method diffie_group hash encryption : Nat) : Transform :=
  { transform_payload :=
      { next_payload := PayloadTypeV1.to_u8 .Transform
        reserved := 0
        length := 36
        transform_number := 0
        transform_id := 1
        reserved2 := 0 }
    encryption_attribute :=
      { attribute_type := AttributeType.to_u16 .Encryption
        attribute_value_or_length := encryption }
    hash_attribute :=
      { attribute_type := AttributeType.to_u16 .HashType
        attribute_value_or_length := hash }
    diffie_hellman_attribute :=
      { attribute_type := AttributeType.to_u16 .DiffieHellmanGroup
        attribute_value_or_length := diffie_group }
    authentication_method_attribute :=
      { attribute_type := AttributeType.to_u16 .AuthenticationMethod
        attribute_value_or_length := auth_method }
    life_type_attribute :=
      { attribute_type := AttributeType.to_u16 .LifeType
        attribute_value_or_length := 1 }
    life_duration_attribute :=
      { attribute_type := AttributeType.to_u16 .LifeDuration
        attribute_value_or_length := 4 }
    life_duration_value := 28800 }

/-- `IkeV1::build_transforms`: the four nested for-loops, outer to inner
authentication method, DH group, hash type, encryption algorithm. -/
def IkeV1.build_transforms : List Transform :=
  authRange.flatMap fun auth_method =>
    dhRange.flatMap fun diffie_group =>
      hashRange.flatMap fun hash =>
        encRange.map fun encryption =>
          mk_transform auth_method diffie_group hash encryption

/-- The two panic sites of the transform-attachment step: the
`expect("Too many transforms")` capacity check, and the out-of-bounds
index `[length - 1]` reached on an empty input list. -/
inductive SetError where
  | tooMany
  | indexOutOfBounds
deriving DecidableEq, Repr

/-- The numbering loop of `IkeV1::set_transforms`
(`for i in 0..length_checked \x7b change_transforms[i].transform_number = i \x7d`),
with the running index made explicit. -/
def number_from (i : Nat) : List Transform → List Transform
  | [] => []
  | t :: ts =>
      { t with transform_payload := { t.transform_payload with transform_number := i } } ::
        number_from (i + 1) ts

/-- The final statement of `IkeV1::set_transforms`:
`change_transforms[length - 1].transform_payload.next_payload = 0`. -/
def set_last_next_zero : List Transform → List Transform
  | [] => []
  | [t] => [{ t with transform_payload := { t.transform_payload with next_payload := 0 } }]
  | t :: ts => t :: set_last_next_zero ts

/-- `IkeV1::set_transforms`: capacity check, 0-based numbering loop, then
zeroing of the last transform's `next_payload`.  The two panics (the
`expect` and the `[length - 1]` index on an empty list) are the two
`SetError` outcomes. -/
def IkeV1.set_transforms (s : IkeV1) (transforms : List Transform) :
    Except SetError IkeV1 :=
  if transforms.length > 255 then .error .tooMany
  else if transforms.length = 0 then .error .indexOutOfBounds
  else
    .ok { s with
      proposal_payload :=
        { s.proposal_payload with number_of_transforms := transforms.length }
      transform := set_last_next_zero (number_from 0 transforms) }

/-- `IkeV1::calculate_length`: proposal length `8 + 36 * n`, SA length
`proposal + 12`, packet length `28 + SA` (all back-filled into the struct). -/
def IkeV1.calculate_length (s : IkeV1) : IkeV1 :=
  let proposal_length := 8 + s.proposal_payload.number_of_transforms * 36
  let security_association_length := proposal_length + 12
  let ike_packet_length := 28 + security_association_length
  { s with
    proposal_payload := { s.proposal_payload with length := proposal_length }
    security_association_payload :=
      { s.security_association_payload with sa_length := security_association_length }
    header := { s.header with length := ike_packet_length } }

/-- Big-endian bytes of a 16-bit (network-endian `U16`) field. -/
def u16be (v : Nat) : List Nat := [v / 2 ^ 8 % 256, v % 256]

/-- Big-endian bytes of a 32-bit (network-endian `U32`) field. -/
def u32be (v : Nat) : List Nat :=
  [v / 2 ^ 24 % 256, v / 2 ^ 16 % 256, v / 2 ^ 8 % 256, v % 256]

/-- Big-endian bytes of a 64-bit (network-endian `U64`) field. -/
def u64be (v : Nat) : List Nat :=
  [v / 2 ^ 56 % 256, v / 2 ^ 48 % 256, v / 2 ^ 40 % 256, v / 2 ^ 32 % 256,
   v / 2 ^ 24 % 256, v / 2 ^ 16 % 256, v / 2 ^ 8 % 256, v % 256]

/-- Native-endian bytes of a plain `u32` field (little-endian target). -/
def u32ne (v : Nat) : List Nat :=
  [v % 256, v / 2 ^ 8 % 256, v / 2 ^ 16 % 256, v / 2 ^ 24 % 256]

/-- Native-endian bytes of a plain `u64` field (little-endian target). -/
def u64ne (v : Nat) : List Nat :=
  [v % 256, v / 2 ^ 8 % 256, v / 2 ^ 16 % 256, v / 2 ^ 24 % 256,
   v / 2 ^ 32 % 256, v / 2 ^ 40 % 256, v / 2 ^ 48 % 256, v / 2 ^ 56 % 256]

/-- `zerocopy::AsBytes` layout of `Attribute` (4 bytes). -/
def Attribute.to_bytes (a : Attribute) : List Nat :=
  u16be a.attribute_type ++ u16be a.attribute_value_or_length

/-- `zerocopy::AsBytes` layout of `TransformPayload` (8 bytes). -/
def TransformPayload.to_bytes (p : TransformPayload) : List Nat :=
  [p.next_payload % 256, p.reserved % 256] ++ u16be p.length ++
    [p.transform_number % 256, p.transform_id % 256] ++ u16be p.reserved2

/-- `zerocopy::AsBytes` layout of `Transform` (36 bytes). -/
def Transform.to_bytes (t : Transform) : List Nat :=
  t.transform_payload.to_bytes ++
    t.encryption_attribute.to_bytes ++
    t.hash_attribute.to_bytes ++
    t.diffie_hellman_attribute.to_bytes ++
    t.authentication_method_attribute.to_bytes ++
    t.life_type_attribute.to_bytes ++
    t.life_duration_attribute.to_bytes ++
    u32be t.life_duration_value

/-- `zerocopy::AsBytes` layout of `IkeV1Header` (28 bytes;
`responder_spi` and `message_id` are plain native-endian integers). -/
def IkeV1Header.to_bytes (h : IkeV1Header) : List Nat :=
  u64be h.initiator_spi ++ u64ne h.responder_spi ++
    [h.next_payload % 256, h.version % 256, h.exchange_type % 256, h.flag % 256] ++
    u32ne h.message_id ++ u32be h.length

/-- `zerocopy::AsBytes` layout of `SecurityAssociationV1` (12 bytes). -/
def SecurityAssociationV1.to_bytes (s : SecurityAssociationV1) : List Nat :=
  [s.sa_next_payload % 256, s.reserved % 256] ++ u16be s.sa_length ++
    u32be s.sa_doi ++ u32be s.sa_situation

/-- `zerocopy::AsBytes` layout of `ProposalPayload` (8 bytes). -/
def ProposalPayload.to_bytes (p : ProposalPayload) : List Nat :=
  [p.next_payload % 256, p.reserved % 256] ++ u16be p.length ++
    [p.proposal % 256, p.protocol_id % 256, p.spi_size % 256,
     p.number_of_transforms % 256]

/-- `IkeV1::convert_to_bytes`: header, SA payload, proposal payload, then the
transform vector, concatenated in order. -/
def IkeV1.convert_to_bytes (s : IkeV1) : List Nat :=
  s.header.to_bytes ++
    s.security_association_payload.to_bytes ++
    s.proposal_payload.to_bytes ++
    s.transform.flatMap Transform.to_bytes

end Ike

namespace Ikev2

/-- IKEv2 key-length attribute (struct `AttributeV2` in ikev2.rs). -/
structure AttributeV2 where
  attribute_type : Nat
  attribute_value : Nat
deriving DecidableEq, Repr

/-- IKEv2 plain 8-byte transform (struct `TransformV2`). -/
structure TransformV2 where
  next_transform : Nat
  reserved : Nat
  length : Nat
  transform_type : Nat
  reserved2 : Nat
  transform_id : Nat
deriving DecidableEq, Repr

/-- IKEv2 encryption transform carrying one key-length attribute
(struct `TransformAttributeV2`; the Rust field `attribute` is a reserved
word in Lean and is rendered `attr`). -/
structure TransformAttributeV2 where
  next_transform : Nat
  reserved : Nat
  length : Nat
  transform_type : Nat
  reserved2 : Nat
  transform_id : Nat
  attr : AttributeV2
deriving DecidableEq, Repr

/-- IKEv2 packet header (struct `IkeV2Header`; here `responder_spi` is a
network-endian `U64`, unlike v1). -/
structure IkeV2Header where
  initiator_spi : Nat
  responder_spi : Nat
  next_payload : Nat
  version : Nat
  exchange_type : Nat
  flag : Nat
  message_id : Nat
  length : Nat
deriving DecidableEq, Repr

/-- IKEv2 Security Association payload (struct `SecurityAssociationV2`). -/
structure SecurityAssociationV2 where
  sa2_next_payload : Nat
  critical_bit : Nat
  sa2_length : Nat
deriving DecidableEq, Repr

/-- IKEv2 Proposal payload (struct `Proposal`; `protocol_id` is the
`ProtocolId` enum serialized as one byte, modelled by its wire value). -/
structure Proposal where
  next_proposal : Nat
  reserved : Nat
  length : Nat
  proposal_number : Nat
  protocol_id : Nat
  spi_size : Nat
  number_of_transforms : Nat
deriving DecidableEq, Repr

/-- IKEv2 Key-Exchange payload header (struct `KeyExchangePayloadV2`). -/
structure KeyExchangePayloadV2 where
  next_payload : Nat
  reserved : Nat
  length : Nat
  diffie_hellman_group : Nat
  reserved2 : Nat
deriving DecidableEq, Repr

/-- IKEv2 Nonce payload header (struct `NoncePayloadV2`). -/
structure NoncePayloadV2 where
  next_payload_ : Nat
  reserved : Nat
  length : Nat
deriving DecidableEq, Repr

/-- The IKEv2 wrapper struct (struct `IkeV2`). -/
structure IkeV2 where
  header : IkeV2Header
  sa_payload_v2 : SecurityAssociationV2
  proposal_v2 : Proposal
  encryption_transforms : List TransformAttributeV2
  prf_transform : List TransformV2
  integrity_algorithm_transform : List TransformV2
  diffie_transform : List TransformV2
  key_exchange : KeyExchangePayloadV2
  key_exchange_data : List Nat
  nonce_payload : NoncePayloadV2
  nonce_data : List Nat
deriving DecidableEq, Repr

/-- IKEv2 payload types (enum `PayloadTypeV2`). -/
inductive PayloadTypeV2 where
  | NoNextPayload
  | SecurityAssociation
  | KeyExchange
  | IdentificationInitiator
  | IdentificationResponder
  | Certificate
  | CertificateRequest
  | Authentication
  | Nonce
  | Notify
  | VendorID
deriving DecidableEq, Fintype, Repr

/-- `impl From<PayloadTypeV2> for u8` in ikev2.rs. -/
def PayloadTypeV2.to_u8 : PayloadTypeV2 → Nat
  | .NoNextPayload => 0
  | .SecurityAssociation => 33
  | .KeyExchange => 34
  | .IdentificationInitiator => 35
  | .IdentificationResponder => 36
  | .Certificate => 37
  | .CertificateRequest => 38
  | .Authentication => 39
  | .Nonce => 40
  | .Notify => 41
  | .VendorID => 43

/-- `PayloadTypeV2::try_from_u8` in ikev2.rs. -/
def PayloadTypeV2.try_from_u8 : Nat → Option PayloadTypeV2
  | 0 => some .NoNextPayload
  | 33 => some .SecurityAssociation
  | 34 => some .KeyExchange
  | 35 => some .IdentificationInitiator
  | 36 => some .IdentificationResponder
  | 37 => some .Certificate
  | 38 => some .CertificateRequest
  | 39 => some .Authentication
  | 40 => some .Nonce
  | 41 => some .Notify
  | 43 => some .VendorID
  | _ => none

/-- IKEv2 exchange types (enum `ExchangeTypeV2`). -/
inductive ExchangeTypeV2 where
  | IkeSaInit
  | IkeAuth
  | CreateChildSa
  | Informational
deriving DecidableEq, Fintype, Repr

/-- `impl From<ExchangeTypeV2> for u8` in ikev2.rs. -/
def ExchangeTypeV2.to_u8 : ExchangeTypeV2 → Nat
  | .IkeSaInit => 34
  | .IkeAuth => 35
  | .CreateChildSa => 36
  | .Informational => 37

/-- `ExchangeTypeV2::try_from_u8` in ikev2.rs. -/
def ExchangeTypeV2.try_from_u8 : Nat → Option ExchangeTypeV2
  | 34 => some .IkeSaInit
  | 35 => some .IkeAuth
  | 36 => some .CreateChildSa
  | 37 => some .Informational
  | _ => none

/-- IKEv2 protocol ids (enum `ProtocolId`). -/
inductive ProtocolId where
  | Reserved
  | IKE
  | AuthenticationHeader
  | EncapsulationSecurityPayload
  | FcEspHeader
  | FcCtAuthentication
deriving DecidableEq, Fintype, Repr

/-- `impl From<ProtocolId> for u8` in ikev2.rs. -/
def ProtocolId.to_u8 : ProtocolId → Nat
  | .Reserved => 0
  | .IKE => 1
  | .AuthenticationHeader => 2
  | .EncapsulationSecurityPayload => 3
  | .FcEspHeader => 4
  | .FcCtAuthentication => 5

/-- `ProtocolId::try_from_u8` in ikev2.rs. -/
def ProtocolId.try_from_u8 : Nat → Option ProtocolId
  | 0 => some .Reserved
  | 1 => some .IKE
  | 2 => some .AuthenticationHeader
  | 3 => some .EncapsulationSecurityPayload
  | 4 => some .FcEspHeader
  | 5 => some .FcCtAuthentication
  | _ => none

/-- The sole IKEv2 attribute type (enum `AttributeType` in ikev2.rs). -/
inductive AttributeType where
  | KeyLength
deriving DecidableEq, Fintype, Repr

/-- `impl From<AttributeType> for U16` in ikev2.rs: `14 | 1 << 15`. -/
def AttributeType.to_u16 : AttributeType → Nat
  | .KeyLength => 14 ||| (1 <<< 15)

/-- IKEv2 transform-type categories (enum `TransformTypeValues`). -/
inductive TransformTypeValues where
  | EncryptionAlgorithm
  | PseudoRandomFunction
  | IntegrityAlgorithm
  | DiffieHellmanGroup
  | ExtendedSequenceNumbers
deriving DecidableEq, Fintype, Repr

/-- `impl From<TransformTypeValues> for u8` in ikev2.rs. -/
def TransformTypeValues.to_u8 : TransformTypeValues → Nat
  | .EncryptionAlgorithm => 1
  | .PseudoRandomFunction => 2
  | .IntegrityAlgorithm => 3
  | .DiffieHellmanGroup => 4
  | .ExtendedSequenceNumbers => 5

/-- The encryption loop range of `IkeV2::build_transforms_v2`:
`(1u16..=9).chain(11..=16).chain(18..=35)`. -/
def encRangeV2 : List Nat := List.range' 1 9 ++ List.range' 11 6 ++ List.range' 18 18

/-- The PRF loop range of `IkeV2::build_transforms_v2`: `1u16..=9`. -/
def prfRangeV2 : List Nat := List.range' 1 9

/-- The integrity-algorithm loop range of `IkeV2::build_transforms_v2`:
`1u16..=14`. -/
def integRangeV2 : List Nat := List.range' 1 14

/-- The Diffie-Hellman loop range of `IkeV2::build_transforms_v2`:
`(1u16..=2).chain(5..=5).chain(14..=34)`. -/
def dhRangeV2 : List Nat := List.range' 1 2 ++ List.range' 5 1 ++ List.range' 14 21

/-- The encryption record pushed by `IkeV2::build_transforms_v2` for cipher
`encryption_v2` with key-length attribute value `attribute_value`. -/
def mk_encryption_transform (encryption_v2 attribute_value : Nat) : TransformAttributeV2 :=
  { next_transform := 3
    reserved := 0
    length := 0
    transform_type := TransformTypeValues.to_u8 .EncryptionAlgorithm
    reserved2 := 0
    transform_id := encryption_v2
    attr :=
      { attribute_type := AttributeType.to_u16 .KeyLength
        attribute_value := attribute_value } }

/-- A plain v2 transform record as pushed by the PRF / integrity / DH loops
of `IkeV2::build_transforms_v2`. -/
def mk_transform_v2 (transform_type transform_id : Nat) : TransformV2 :=
  { next_transform := 3
    reserved := 0
    length := 0
    transform_type := transform_type
    reserved2 := 0
    transform_id := transform_id }

/-- `IkeV2::build_transforms_v2`: the four independent category loops; AES-CBC
(12) and AES-CTR (13) emit three key-length records each, every other cipher
one record with key-length 0. -/
def IkeV2.build_transforms_v2 :
    List TransformAttributeV2 × List TransformV2 × List TransformV2 × List TransformV2 :=
  (encRangeV2.flatMap fun encryption_v2 =>
      if encryption_v2 = 12 ∨ encryption_v2 = 13 then
        [128, 192, 256].map fun attribute_value =>
          mk_encryption_transform encryption_v2 attribute_value
      else
        [mk_encryption_transform encryption_v2 0],
    prfRangeV2.map fun prf_value =>
      mk_transform_v2 (TransformTypeValues.to_u8 .PseudoRandomFunction) prf_value,
    integRangeV2.map fun integrity_algorithm =>
      mk_transform_v2 (TransformTypeValues.to_u8 .IntegrityAlgorithm) integrity_algorithm,
    dhRangeV2.map fun diffie_group =>
      mk_transform_v2 (TransformTypeValues.to_u8 .DiffieHellmanGroup) diffie_group)

/-- The final statement of `IkeV2::set_transforms_v2`:
`change_transform[diffie_group.len() - 1].next_transform = 0`. -/
def set_last_next_zero_v2 : List TransformV2 → List TransformV2
  | [] => []
  | [t] => [{ t with next_transform := Ikev2.PayloadTypeV2.to_u8 .NoNextPayload }]
  | t :: ts => t :: set_last_next_zero_v2 ts

/-- `IkeV2::set_transforms_v2`: total-capacity check over all four category
lists, then attachment; only the last Diffie-Hellman-group entry's
`next_transform` is zeroed.  The `expect` and the `[len - 1]` index on an
empty DH list are the two `Ike.SetError` outcomes. -/
def IkeV2.set_transforms_v2 (s : IkeV2) (encryption : List TransformAttributeV2)
    (prf integrity_algorithm diffie_group : List TransformV2) :
    Except Ike.SetError IkeV2 :=
  if encryption.length + prf.length + integrity_algorithm.length + diffie_group.length >
      255 then .error .tooMany
  else if diffie_group.length = 0 then .error .indexOutOfBounds
  else
    .ok { s with
      proposal_v2 := { s.proposal_v2 with
        number_of_transforms :=
          encryption.length + prf.length + integrity_algorithm.length +
            diffie_group.length }
      encryption_transforms := encryption
      prf_transform := prf
      integrity_algorithm_transform := integrity_algorithm
      diffie_transform := set_last_next_zero_v2 diffie_group }

/-- `TransformV2::calculate_length`: the plain transform is 8 bytes. -/
def TransformV2.calculate_length (t : TransformV2) : TransformV2 :=
  { t with length := 8 }

/-- `TransformAttributeV2::calculate_length`: the attribute-bearing transform
is `4 + 8` bytes. -/
def TransformAttributeV2.calculate_length (t : TransformAttributeV2) : TransformAttributeV2 :=
  { t with length := 4 + 8 }

/-- `IkeV2::calculate_length_v2`: recompute every transform's own length,
sum them, then back-fill proposal, SA, key-exchange, nonce and packet
lengths.  The `as u16` casts of the two `Vec` lengths are the explicit
`% 65536`. -/
def IkeV2.calculate_length_v2 (s : IkeV2) : IkeV2 :=
  let encryption_transforms := s.encryption_transforms.map TransformAttributeV2.calculate_length
  let prf_transform := s.prf_transform.map TransformV2.calculate_length
  let integrity_algorithm_transform :=
    s.integrity_algorithm_transform.map TransformV2.calculate_length
  let diffie_transform := s.diffie_transform.map TransformV2.calculate_length
  let length :=
    (encryption_transforms.map TransformAttributeV2.length).sum +
      (prf_transform.map TransformV2.length).sum +
      (integrity_algorithm_transform.map TransformV2.length).sum +
      (diffie_transform.map TransformV2.length).sum
  let proposal_length := 8 + length
  let sa_length := 4 + proposal_length
  let key_exchange_length := (8 + s.key_exchange_data.length % 65536) % 65536
  let nonce_length := (4 + s.nonce_data.length % 65536) % 65536
  let header_length := 28 + sa_length + key_exchange_length + nonce_length
  { s with
    encryption_transforms := encryption_transforms
    prf_transform := prf_transform
    integrity_algorithm_transform := integrity_algorithm_transform
    diffie_transform := diffie_transform
    proposal_v2 := { s.proposal_v2 with length := proposal_length }
    sa_payload_v2 := { s.sa_payload_v2 with sa2_length := sa_length }
    key_exchange := { s.key_exchange with length := key_exchange_length }
    nonce_payload := { s.nonce_payload with length := nonce_length }
    header := { s.header with length := header_length } }

/-- `zerocopy::AsBytes` layout of `IkeV2Header` (28 bytes; both SPI fields
are network-endian `U64`, `message_id` is a plain `u32`). -/
def IkeV2Header.to_bytes (h : IkeV2Header) : List Nat :=
  Ike.u64be h.initiator_spi ++ Ike.u64be h.responder_spi ++
    [h.next_payload % 256, h.version % 256, h.exchange_type % 256, h.flag % 256] ++
    Ike.u32ne h.message_id ++ Ike.u32be h.length

/-- `zerocopy::AsBytes` layout of `SecurityAssociationV2` (4 bytes). -/
def SecurityAssociationV2.to_bytes (s : SecurityAssociationV2) : List Nat :=
  [s.sa2_next_payload % 256, s.critical_bit % 256] ++ Ike.u16be s.sa2_length

/-- `zerocopy::AsBytes` layout of `Proposal` (8 bytes). -/
def Proposal.to_bytes (p : Proposal) : List Nat :=
  [p.next_proposal % 256, p.reserved % 256] ++ Ike.u16be p.length ++
    [p.proposal_number % 256, p.protocol_id % 256, p.spi_size % 256,
     p.number_of_transforms % 256]

/-- `zerocopy::AsBytes` layout of `TransformV2` (8 bytes). -/
def TransformV2.to_bytes (t : TransformV2) : List Nat :=
  [t.next_transform % 256, t.reserved % 256] ++ Ike.u16be t.length ++
    [t.transform_type % 256, t.reserved2 % 256] ++ Ike.u16be t.transform_id

/-- `zerocopy::AsBytes` layout of `AttributeV2` (4 bytes). -/
def AttributeV2.to_bytes (a : AttributeV2) : List Nat :=
  Ike.u16be a.attribute_type ++ Ike.u16be a.attribute_value

/-- `zerocopy::AsBytes` layout of `TransformAttributeV2` (12 bytes). -/
def TransformAttributeV2.to_bytes (t : TransformAttributeV2) : List Nat :=
  [t.next_transform % 256, t.reserved % 256] ++ Ike.u16be t.length ++
    [t.transform_type % 256, t.reserved2 % 256] ++ Ike.u16be t.transform_id ++
    t.attr.to_bytes

/-- `zerocopy::AsBytes` layout of `KeyExchangePayloadV2` (8 bytes). -/
def KeyExchangePayloadV2.to_bytes (k : KeyExchangePayloadV2) : List Nat :=
  [k.next_payload % 256, k.reserved % 256] ++ Ike.u16be k.length ++
    Ike.u16be k.diffie_hellman_group ++ Ike.u16be k.reserved2

/-- `zerocopy::AsBytes` layout of `NoncePayloadV2` (4 bytes). -/
def NoncePayloadV2.to_bytes (n : NoncePayloadV2) : List Nat :=
  [n.next_payload_ % 256, n.reserved % 256] ++ Ike.u16be n.length

/-- `IkeV2::convert_to_bytes_v2`: header, SA, proposal, the four transform
categories in order encryption, PRF, integrity, DH group, then key-exchange
payload and data, then nonce payload and data. -/
def IkeV2.convert_to_bytes_v2 (s : IkeV2) : List Nat :=
  s.header.to_bytes ++
    s.sa_payload_v2.to_bytes ++
    s.proposal_v2.to_bytes ++
    s.encryption_transforms.flatMap TransformAttributeV2.to_bytes ++
    s.prf_transform.flatMap TransformV2.to_bytes ++
    s.integrity_algorithm_transform.flatMap TransformV2.to_bytes ++
    s.diffie_transform.flatMap TransformV2.to_bytes ++
    s.key_exchange.to_bytes ++
    (s.key_exchange_data.map fun b => b % 256) ++
    s.nonce_payload.to_bytes ++
    (s.nonce_data.map fun b => b % 256)

end Ikev2

/-- A freshly initialized v1 packet: zero responder SPI and message id,
header/SA/proposal next-payload pointers as in the documented pipeline, no
transforms attached yet. -/
def ikeV1_demo : Ike.IkeV1 :=
  { header :=
      { initiator_spi := 1, responder_spi := 0, next_payload := 1, version := 16
        exchange_type := 2, flag := 0, message_id := 0, length := 0 }
    security_association_payload :=
      { sa_next_payload := 2, reserved := 0, sa_length := 0, sa_doi := 0
        sa_situation := 1 }
    proposal_payload :=
      { next_payload := 3, reserved := 0, length := 0, proposal := 1
        protocol_id := 1, spi_size := 0, number_of_transforms := 0 }
    transform := [] }

/-- A freshly initialized v2 packet with no transforms or key material. -/
def ikeV2_demo : Ikev2.IkeV2 :=
  { header :=
      { initiator_spi := 1, responder_spi := 0, next_payload := 33, version := 32
        exchange_type := 34, flag := 8, message_id := 0, length := 0 }
    sa_payload_v2 := { sa2_next_payload := 34, critical_bit := 0, sa2_length := 0 }
    proposal_v2 :=
      { next_proposal := 0, reserved := 0, length := 0, proposal_number := 1
        protocol_id := 1, spi_size := 0, number_of_transforms := 0 }
    encryption_transforms := []
    prf_transform := []
    integrity_algorithm_transform := []
    diffie_transform := []
    key_exchange := { next_payload := 40, reserved := 0, length := 0
                      diffie_hellman_group := 14, reserved2 := 0 }
    key_exchange_data := []
    nonce_payload := { next_payload_ := 0, reserved := 0, length := 0 }
    nonce_data := [] }

/-- A one-transform input list used to exercise the attachment step. -/
def v1_demo_list : List Ike.Transform := [Ike.mk_transform 1 1 1 1]

/-- A two-transform input list exhibiting the numbering behaviour. -/
def v1_two_list : List Ike.Transform :=
  [Ike.mk_transform 1 1 1 1, Ike.mk_transform 1 1 1 2]

/-- The v1 demo packet after a successful attachment of `v1_demo_list`. -/
def ikeV1_demo_set : Ike.IkeV1 :=
  match Ike.IkeV1.set_transforms ikeV1_demo v1_demo_list with
  | .ok s => s
  | .error _ => ikeV1_demo

/-- The v2 demo packet after a successful attachment of the full generated
transform set. -/
def ikeV2_demo_set : Ikev2.IkeV2 :=
  match Ikev2.IkeV2.set_transforms_v2 ikeV2_demo
      Ikev2.IkeV2.build_transforms_v2.1
      Ikev2.IkeV2.build_transforms_v2.2.1
      Ikev2.IkeV2.build_transforms_v2.2.2.1
      Ikev2.IkeV2.build_transforms_v2.2.2.2 with
  | .ok s => s
  | .error _ => ikeV2_demo

/-- A stand-in key-exchange data block of the generator's exact size
(1024-bit prime, left-padded public value: 128 bytes). -/
def v2_demo_kex : List Nat := List.replicate 128 0

/-- A stand-in nonce of the generator's exact size (174 bytes). -/
def v2_demo_nonce : List Nat := List.replicate 174 0

/-- The v2 demo packet with key material attached, as produced by the
`generate_key_exchange_data` / `generate_nonce_data` steps. -/
def ikeV2_demo_attached : Ikev2.IkeV2 :=
  { ikeV2_demo_set with key_exchange_data := v2_demo_kex, nonce_data := v2_demo_nonce }

section helper_lemmas

open Ike Ikev2

lemma number_from_length (i : Nat) (ts : List Transform) :
    (number_from i ts).length = ts.length := by
  induction ts generalizing i with
  | nil => rfl
  | cons t ts ih => simp [number_from, ih]

lemma set_last_next_zero_length (ts : List Transform) :
    (set_last_next_zero ts).length = ts.length := by
  induction ts with
  | nil => rfl
  | cons t ts ih =>
    cases ts with
    | nil => rfl
    | cons x xs => simpa [set_last_next_zero] using ih

lemma set_last_next_zero_v2_length (ts : List TransformV2) :
    (set_last_next_zero_v2 ts).length = ts.length := by
  induction ts with
  | nil => rfl
  | cons t ts ih =>
    cases ts with
    | nil => rfl
    | cons x xs => simpa [set_last_next_zero_v2] using ih

lemma transform_to_bytes_length (t : Transform) : t.to_bytes.length = 36 := rfl

lemma flatMap_transform_to_bytes_length (l : List Transform) :
    (l.flatMap Transform.to_bytes).length = 36 * l.length := by
  induction l with
  | nil => rfl
  | cons t ts ih =>
    simp only [List.flatMap_cons, List.length_append, ih, transform_to_bytes_length,
      List.length_cons]
    ring

lemma transform_v2_to_bytes_length (t : TransformV2) : t.to_bytes.length = 8 := rfl

lemma flatMap_transform_v2_to_bytes_length (l : List TransformV2) :
    (l.flatMap TransformV2.to_bytes).length = 8 * l.length := by
  induction l with
  | nil => rfl
  | cons t ts ih =>
    simp only [List.flatMap_cons, List.length_append, ih, transform_v2_to_bytes_length,
      List.length_cons]
    ring

lemma transform_attr_v2_to_bytes_length (t : TransformAttributeV2) :
    t.to_bytes.length = 12 := rfl

lemma flatMap_transform_attr_v2_to_bytes_length (l : List TransformAttributeV2) :
    (l.flatMap TransformAttributeV2.to_bytes).length = 12 * l.length := by
  induction l with
  | nil => rfl
  | cons t ts ih =>
    simp only [List.flatMap_cons, List.length_append, ih, transform_attr_v2_to_bytes_length,
      List.length_cons]
    ring

lemma sum_map_const {α : Type} (l : List α) (c : Nat) :
    (l.map fun _ => c).sum = c * l.length := by
  induction l with
  | nil => simp
  | cons x xs ih => simp [ih, Nat.mul_succ]; ring

lemma set_transforms_ok {s : IkeV1} {ts : List Transform} {s1 : IkeV1}
    (h : s.set_transforms ts = .ok s1) :
    ts.length ≤ 255 ∧ ts.length ≠ 0 ∧
      s1 = { s with
        proposal_payload :=
          { s.proposal_payload with number_of_transforms := ts.length }
        transform := set_last_next_zero (number_from 0 ts) } := by
  unfold IkeV1.set_transforms at h
  by_cases h1 : ts.length > 255
  · rw [if_pos h1] at h
    exact Except.noConfusion h
  · rw [if_neg h1] at h
    by_cases h2 : ts.length = 0
    · rw [if_pos h2] at h
      exact Except.noConfusion h
    · rw [if_neg h2] at h
      injection h with h
      exact ⟨by omega, h2, h.symm⟩

lemma set_transforms_v2_ok {s : IkeV2} {e : List TransformAttributeV2}
    {p i d : List TransformV2} {s1 : IkeV2}
    (h : Ikev2.IkeV2.set_transforms_v2 s e p i d = .ok s1) :
    e.length + p.length + i.length + d.length ≤ 255 ∧ d.length ≠ 0 ∧
      s1 = { s with
        proposal_v2 :=
          { s.proposal_v2 with
            number_of_transforms := e.length + p.length + i.length + d.length }
        encryption_transforms := e
        prf_transform := p
        integrity_algorithm_transform := i
        diffie_transform := set_last_next_zero_v2 d } := by
  unfold Ikev2.IkeV2.set_transforms_v2 at h
  by_cases h1 : e.length + p.length + i.length + d.length > 255
  · rw [if_pos h1] at h
    exact Except.noConfusion h
  · rw [if_neg h1] at h
    by_cases h2 : d.length = 0
    · rw [if_pos h2] at h
      exact Except.noConfusion h
    · rw [if_neg h2] at h
      injection h with h
      exact ⟨by omega, h2, h.symm⟩

lemma mem_number_from {i : Nat} {ts : List Transform} {t : Transform}
    (ht : t ∈ number_from i ts)
    (h3 : ∀ u ∈ ts, u.transform_payload.next_payload = 3) :
    t.transform_payload.next_payload = 3 := by
  induction ts generalizing i with
  | nil => simp [number_from] at ht
  | cons u us ih =>
    simp only [number_from, List.mem_cons] at ht
    rcases ht with rfl | ht
    · exact h3 u (List.mem_cons_self u us)
    · exact ih ht fun v hv => h3 v (List.mem_cons_of_mem u hv)

lemma map_next_set_last_next_zero (l : List Transform) (hne : l ≠ [])
    (h3 : ∀ t ∈ l, t.transform_payload.next_payload = 3) :
    ((set_last_next_zero l).map fun t => t.transform_payload.next_payload) =
      List.replicate (l.length - 1) 3 ++ [0] := by
  induction l with
  | nil => exact absurd rfl hne
  | cons t ts ih =>
    cases ts with
    | nil => simp [set_last_next_zero]
    | cons x xs =>
      have hx : ∀ u ∈ x :: xs, u.transform_payload.next_payload = 3 :=
        fun u hu => h3 u (List.mem_cons_of_mem t hu)
      have ht : t.transform_payload.next_payload = 3 := h3 t (List.mem_cons_self t _)
      simp only [set_last_next_zero, List.map_cons, ih (by simp) hx, ht,
        List.length_cons, List.replicate_succ, Nat.add_sub_cancel, List.cons_append]

lemma map_next_set_last_next_zero_v2 (l : List TransformV2) (hne : l ≠ [])
    (h3 : ∀ t ∈ l, t.next_transform = 3) :
    ((set_last_next_zero_v2 l).map fun t => t.next_transform) =
      List.replicate (l.length - 1) 3 ++ [0] := by
  induction l with
  | nil => exact absurd rfl hne
  | cons t ts ih =>
    cases ts with
    | nil => simp [set_last_next_zero_v2, Ikev2.PayloadTypeV2.to_u8]
    | cons x xs =>
      have hx : ∀ u ∈ x :: xs, u.next_transform = 3 :=
        fun u hu => h3 u (List.mem_cons_of_mem t hu)
      have ht : t.next_transform = 3 := h3 t (List.mem_cons_self t _)
      simp only [set_last_next_zero_v2, List.map_cons, ih (by simp) hx, ht,
        List.length_cons, List.replicate_succ, Nat.add_sub_cancel, List.cons_append]

lemma mem_build_transforms {t : Transform} :
    t ∈ IkeV1.build_transforms ↔
      ∃ a ∈ authRange, ∃ d ∈ dhRange, ∃ h ∈ hashRange, ∃ e ∈ encRange,
        t = mk_transform a d h e := by
  simp only [IkeV1.build_transforms, List.mem_flatMap, List.mem_map]
  constructor
  · rintro ⟨a, ha, d, hd, h, hh, e, he, rfl⟩
    exact ⟨a, ha, d, hd, h, hh, e, he, rfl⟩
  · rintro ⟨a, ha, d, hd, h, hh, e, he, rfl⟩
    exact ⟨a, ha, d, hd, h, hh, e, he, rfl⟩

lemma mk_transform_inj {a d h e a' d' h' e' : Nat} :
    mk_transform a d h e = mk_transform a' d' h' e' ↔
      a = a' ∧ d = d' ∧ h = h' ∧ e = e' := by
  constructor
  · intro heq
    exact ⟨congrArg (fun t => t.authentication_method_attribute.attribute_value_or_length) heq,
           congrArg (fun t => t.diffie_hellman_attribute.attribute_value_or_length) heq,
           congrArg (fun t => t.hash_attribute.attribute_value_or_length) heq,
           congrArg (fun t => t.encryption_attribute.attribute_value_or_length) heq⟩
  · rintro ⟨rfl, rfl, rfl, rfl⟩
    rfl

lemma count_map_enc (l : List Nat) (a d h a' d' h' e' : Nat) :
    ((l.map fun e => mk_transform a d h e).count (mk_transform a' d' h' e')) =
      if a = a' ∧ d = d' ∧ h = h' then l.count e' else 0 := by
  induction l with
  | nil => simp only [List.map_nil, List.count_nil]; split <;> rfl
  | cons x xs ih =>
    simp only [List.map_cons, List.count_cons, ih, mk_transform_inj, beq_iff_eq]
    split_ifs <;> omega

lemma count_flatMap_hash (l : List Nat) (a d a' d' h' e' : Nat) :
    ((l.flatMap fun h => encRange.map fun e => mk_transform a d h e).count
        (mk_transform a' d' h' e')) =
      if a = a' ∧ d = d' then l.count h' * encRange.count e' else 0 := by
  induction l with
  | nil => simp only [List.flatMap_nil, List.count_nil]; split <;> simp
  | cons x xs ih =>
    simp only [List.flatMap_cons, List.count_append, ih, count_map_enc, List.count_cons,
      beq_iff_eq]
    split_ifs <;> first | (exfalso; omega) | (simp only [Nat.add_mul, Nat.mul_add]; omega) | omega

lemma count_flatMap_dh (l : List Nat) (a a' d' h' e' : Nat) :
    ((l.flatMap fun d => hashRange.flatMap fun h =>
          encRange.map fun e => mk_transform a d h e).count
        (mk_transform a' d' h' e')) =
      if a = a' then l.count d' * (hashRange.count h' * encRange.count e') else 0 := by
  induction l with
  | nil => simp only [List.flatMap_nil, List.count_nil]; split <;> simp
  | cons x xs ih =>
    simp only [List.flatMap_cons, List.count_append, ih, count_flatMap_hash, List.count_cons,
      beq_iff_eq]
    split_ifs <;> first | (exfalso; omega) | (simp only [Nat.add_mul, Nat.mul_add]; omega) | omega

lemma count_build_transforms (a' d' h' e' : Nat) :
    (IkeV1.build_transforms.count (mk_transform a' d' h' e')) =
      authRange.count a' *
        (dhRange.count d' * (hashRange.count h' * encRange.count e')) := by
  have key : ∀ l : List Nat,
      ((l.flatMap fun a => dhRange.flatMap fun d => hashRange.flatMap fun h =>
            encRange.map fun e => mk_transform a d h e).count
          (mk_transform a' d' h' e')) =
        l.count a' * (dhRange.count d' * (hashRange.count h' * encRange.count e')) := by
    intro l
    induction l with
    | nil => simp
    | cons x xs ih =>
      simp only [List.flatMap_cons, List.count_append, ih, count_flatMap_dh, List.count_cons,
        beq_iff_eq]
      split_ifs <;> first | (exfalso; omega) | (simp only [Nat.add_mul, Nat.mul_add]; omega)
  exact key authRange

lemma flatMap_const_length {α β : Type} (l : List α) (f : α → List β) (c : Nat)
    (h : ∀ a ∈ l, (f a).length = c) : (l.flatMap f).length = c * l.length := by
  induction l with
  | nil => simp
  | cons x xs ih =>
    simp only [List.flatMap_cons, List.length_append, List.length_cons,
      h x (List.mem_cons_self x xs), ih fun a ha => h a (List.mem_cons_of_mem x ha)]
    ring

lemma build_transforms_length : IkeV1.build_transforms.length = 11136 := by
  have h1 : ∀ a ∈ authRange,
      ((dhRange.flatMap fun d => hashRange.flatMap fun h =>
          encRange.map fun e => mk_transform a d h e)).length = 1392 := by
    intro a _
    have h2 : ∀ d ∈ dhRange,
        ((hashRange.flatMap fun h => encRange.map fun e => mk_transform a d h e)).length =
          48 := by
      intro d _
      have h3 : ∀ h ∈ hashRange, ((encRange.map fun e => mk_transform a d h e)).length = 8 := by
        intro h _
        simp [encRange]
      rw [flatMap_const_length hashRange _ 8 h3]
      simp [hashRange]
    rw [flatMap_const_length dhRange _ 48 h2]
    simp [dhRange]
  unfold IkeV1.build_transforms
  rw [flatMap_const_length authRange _ 1392 h1]
  simp [authRange]

lemma header_to_bytes_length (h : IkeV1Header) : h.to_bytes.length = 28 := rfl

lemma sa_to_bytes_length (s : SecurityAssociationV1) : s.to_bytes.length = 12 := rfl

lemma proposal_to_bytes_length (p : ProposalPayload) : p.to_bytes.length = 8 := rfl

lemma header_v2_to_bytes_length (h : IkeV2Header) : h.to_bytes.length = 28 := rfl

lemma sa_v2_to_bytes_length (s : SecurityAssociationV2) : s.to_bytes.length = 4 := rfl

lemma proposal_v2_to_bytes_length (p : Ikev2.Proposal) : p.to_bytes.length = 8 := rfl

lemma key_exchange_to_bytes_length (k : KeyExchangePayloadV2) : k.to_bytes.length = 8 := rfl

lemma nonce_to_bytes_length (n : NoncePayloadV2) : n.to_bytes.length = 4 := rfl

lemma sum_len_calc_attr (l : List TransformAttributeV2) :
    ((l.map TransformAttributeV2.calculate_length).map TransformAttributeV2.length).sum =
      12 * l.length := by
  induction l with
  | nil => rfl
  | cons x xs ih =>
    simp only [List.map_cons, List.sum_cons, ih, List.length_cons,
      TransformAttributeV2.calculate_length]
    ring

lemma sum_len_calc_v2 (l : List TransformV2) :
    ((l.map TransformV2.calculate_length).map TransformV2.length).sum = 8 * l.length := by
  induction l with
  | nil => rfl
  | cons x xs ih =>
    simp only [List.map_cons, List.sum_cons, ih, List.length_cons,
      TransformV2.calculate_length]
    ring

end helper_lemmas

/-- C1: for every packet the documented pipeline builds (attach transforms
with the set step, resolve lengths, serialize), the header's 32-bit length
field equals the byte length of the serialized buffer; for v2 (with the full
generated transform set attached) this holds for every key-exchange data
vector small enough for its 16-bit length field and for the generated
174-byte nonce, and moreover the key-exchange payload's length field is
8 plus the exchange data's byte count and the nonce payload's length field
is 4 + 174. -/
theorem C1_header_length_matches_buffer :
    (∀ (s : Ike.IkeV1) (ts : List Ike.Transform) (s1 : Ike.IkeV1),
        Ike.IkeV1.set_transforms s ts = .ok s1 →
        (Ike.IkeV1.convert_to_bytes (Ike.IkeV1.calculate_length s1)).length =
          (Ike.IkeV1.calculate_length s1).header.length) ∧
    (∀ (s : Ikev2.IkeV2) (kex nonce : List Nat) (s1 : Ikev2.IkeV2),
        Ikev2.IkeV2.set_transforms_v2 s
            Ikev2.IkeV2.build_transforms_v2.1
            Ikev2.IkeV2.build_transforms_v2.2.1
            Ikev2.IkeV2.build_transforms_v2.2.2.1
            Ikev2.IkeV2.build_transforms_v2.2.2.2 = .ok s1 →
        kex.length ≤ 65527 → nonce.length = 174 →
        (Ikev2.IkeV2.convert_to_bytes_v2 (Ikev2.IkeV2.calculate_length_v2
            { s1 with key_exchange_data := kex, nonce_data := nonce })).length =
          (Ikev2.IkeV2.calculate_length_v2
            { s1 with key_exchange_data := kex, nonce_data := nonce }).header.length ∧
        (Ikev2.IkeV2.calculate_length_v2
            { s1 with key_exchange_data := kex, nonce_data := nonce }).key_exchange.length =
          8 + kex.length ∧
        (Ikev2.IkeV2.calculate_length_v2
            { s1 with key_exchange_data := kex, nonce_data := nonce }).nonce_payload.length =
          4 + 174) := by
  constructor
  · intro s ts s1 h
    obtain ⟨h255, hne, rfl⟩ := set_transforms_ok h
    simp only [Ike.IkeV1.calculate_length, Ike.IkeV1.convert_to_bytes,
      List.length_append, flatMap_transform_to_bytes_length,
      set_last_next_zero_length, number_from_length,
      header_to_bytes_length, sa_to_bytes_length, proposal_to_bytes_length]
    omega
  · intro s kex nonce s1 h hkex hnonce
    obtain ⟨h255, hne, rfl⟩ := set_transforms_v2_ok h
    have hmod : (8 + kex.length % 65536) % 65536 = 8 + kex.length := by
      rw [Nat.mod_eq_of_lt (by omega), Nat.mod_eq_of_lt (by omega)]
    have hmodn : (4 + nonce.length % 65536) % 65536 = 4 + 174 := by
      rw [hnonce]
    refine ⟨?_, ?_, ?_⟩ <;>
      simp only [Ikev2.IkeV2.calculate_length_v2, Ikev2.IkeV2.convert_to_bytes_v2,
        List.length_append, List.length_map,
        flatMap_transform_v2_to_bytes_length,
        flatMap_transform_attr_v2_to_bytes_length,
        sum_len_calc_attr, sum_len_calc_v2,
        set_last_next_zero_v2_length,
        header_v2_to_bytes_length, sa_v2_to_bytes_length,
        proposal_v2_to_bytes_length, key_exchange_to_bytes_length,
        nonce_to_bytes_length, hmod, hmodn, hnonce]
    all_goals omega

set_option maxRecDepth 100000 in
/-- C1 witness: the pipeline results on the demo fixtures. -/
theorem C1_witness :
    Ike.IkeV1.set_transforms ikeV1_demo v1_demo_list = .ok ikeV1_demo_set ∧
    (Ike.IkeV1.convert_to_bytes (Ike.IkeV1.calculate_length ikeV1_demo_set)).length =
      (Ike.IkeV1.calculate_length ikeV1_demo_set).header.length ∧
    (Ikev2.IkeV2.convert_to_bytes_v2
        (Ikev2.IkeV2.calculate_length_v2 ikeV2_demo_attached)).length =
      (Ikev2.IkeV2.calculate_length_v2 ikeV2_demo_attached).header.length ∧
    (Ikev2.IkeV2.calculate_length_v2 ikeV2_demo_attached).key_exchange.length =
      8 + v2_demo_kex.length ∧
    (Ikev2.IkeV2.calculate_length_v2 ikeV2_demo_attached).nonce_payload.length = 4 + 174 := by
  have h1 : Ike.IkeV1.set_transforms ikeV1_demo v1_demo_list = .ok ikeV1_demo_set := rfl
  have h2 : Ikev2.IkeV2.set_transforms_v2 ikeV2_demo
      Ikev2.IkeV2.build_transforms_v2.1
      Ikev2.IkeV2.build_transforms_v2.2.1
      Ikev2.IkeV2.build_transforms_v2.2.2.1
      Ikev2.IkeV2.build_transforms_v2.2.2.2 = .ok ikeV2_demo_set := rfl
  have h3 := C1_header_length_matches_buffer.2 ikeV2_demo v2_demo_kex v2_demo_nonce
    ikeV2_demo_set h2 (by simp [v2_demo_kex]) (by simp [v2_demo_nonce])
  exact ⟨h1, C1_header_length_matches_buffer.1 ikeV1_demo v1_demo_list ikeV1_demo_set h1,
    h3.1, h3.2.1, h3.2.2⟩

/-- C2 (amended): the v1 generator yields 11136 transforms, the product of
the four documented range sizes 8 * 29 * 6 * 8, and every combination of
(authentication method, DH group, hash type, encryption algorithm) from the
documented ranges appears exactly once. -/
theorem C2_transform_generation :
    Ike.IkeV1.build_transforms.length = 11136 ∧
    11136 = Ike.authRange.length * Ike.dhRange.length * Ike.hashRange.length *
      Ike.encRange.length ∧
    ∀ a d h e, a ∈ Ike.authRange → d ∈ Ike.dhRange → h ∈ Ike.hashRange →
      e ∈ Ike.encRange →
      Ike.IkeV1.build_transforms.count (Ike.mk_transform a d h e) = 1 := by
  refine ⟨build_transforms_length, by decide, ?_⟩
  intro a d h e ha hd hh he
  rw [count_build_transforms,
    List.count_eq_one_of_mem (by decide) ha, List.count_eq_one_of_mem (by decide) hd,
    List.count_eq_one_of_mem (by decide) hh, List.count_eq_one_of_mem (by decide) he]

/-- C2 counterexample: the generated v1 transform list does not have 5880
elements (it has 11136). -/
theorem C2_counterexample : Ike.IkeV1.build_transforms.length ≠ 5880 := by
  rw [build_transforms_length]
  decide

/-- C2 witness: one concrete combination appears exactly once. -/
theorem C2_witness :
    Ike.IkeV1.build_transforms.count (Ike.mk_transform 1 1 1 1) = 1 :=
  C2_transform_generation.2.2 1 1 1 1 (by decide) (by decide) (by decide) (by decide)

/-- C3: evaluating the v1 attachment step on a concrete two-transform list
shows the stored transform numbers are 0 and 1 (0-based), not the claimed
1 and 2. -/
theorem C3_numbering_is_zero_based :
    (Ike.IkeV1.set_transforms ikeV1_demo v1_two_list).map
        (fun s => s.transform.map fun t => t.transform_payload.transform_number) =
      .ok [0, 1] ∧ ([0, 1] : List Nat) ≠ [1, 2] :=
  ⟨rfl, by decide⟩

/-- C4 (amended): attachment fails with the capacity error for every input
of total length over 255, and succeeds - storing the exact count in the
proposal's transform-count field - for every NON-EMPTY input of total length
at most 255 (v2: non-empty DH-group category); the empty input also stays
under the cap but panics instead (see the counterexample). -/
theorem C4_capacity_check :
    (∀ (s : Ike.IkeV1) (ts : List Ike.Transform), ts.length > 255 →
        Ike.IkeV1.set_transforms s ts = .error .tooMany) ∧
    (∀ (s : Ike.IkeV1) (ts : List Ike.Transform), 1 ≤ ts.length → ts.length ≤ 255 →
        ∃ s1, Ike.IkeV1.set_transforms s ts = .ok s1 ∧
          s1.proposal_payload.number_of_transforms = ts.length) ∧
    (∀ (s : Ikev2.IkeV2) (e : List Ikev2.TransformAttributeV2)
        (p i d : List Ikev2.TransformV2),
        e.length + p.length + i.length + d.length > 255 →
        Ikev2.IkeV2.set_transforms_v2 s e p i d = .error .tooMany) ∧
    (∀ (s : Ikev2.IkeV2) (e : List Ikev2.TransformAttributeV2)
        (p i d : List Ikev2.TransformV2),
        e.length + p.length + i.length + d.length ≤ 255 → 1 ≤ d.length →
        ∃ s1, Ikev2.IkeV2.set_transforms_v2 s e p i d = .ok s1 ∧
          s1.proposal_v2.number_of_transforms =
            e.length + p.length + i.length + d.length) := by
  refine ⟨?_, ?_, ?_, ?_⟩
  · intro s ts h
    unfold Ike.IkeV1.set_transforms
    rw [if_pos h]
  · intro s ts h1 h255
    unfold Ike.IkeV1.set_transforms
    rw [if_neg (by omega), if_neg (by omega)]
    exact ⟨_, rfl, rfl⟩
  · intro s e p i d h
    unfold Ikev2.IkeV2.set_transforms_v2
    rw [if_pos h]
  · intro s e p i d h255 h1
    unfold Ikev2.IkeV2.set_transforms_v2
    rw [if_neg (by omega), if_neg (by omega)]
    exact ⟨_, rfl, rfl⟩

/-- C4 counterexample: the empty transform list is within the 255 cap, yet
attachment fails (with the out-of-bounds panic, not a construction error). -/
theorem C4_counterexample :
    Ike.IkeV1.set_transforms ikeV1_demo [] = .error .indexOutOfBounds ∧
    ([] : List Ike.Transform).length ≤ 255 :=
  ⟨rfl, by decide⟩

/-- C4 witness: both directions exercised on concrete inputs. -/
theorem C4_witness :
    Ike.IkeV1.set_transforms ikeV1_demo
        (List.replicate 256 (Ike.mk_transform 1 1 1 1)) = .error .tooMany ∧
    (∃ s1, Ike.IkeV1.set_transforms ikeV1_demo v1_demo_list = .ok s1 ∧
        s1.proposal_payload.number_of_transforms = v1_demo_list.length) ∧
    Ikev2.IkeV2.set_transforms_v2 ikeV2_demo [] [] []
        (List.replicate 256 (Ikev2.mk_transform_v2 4 1)) = .error .tooMany ∧
    (∃ s1, Ikev2.IkeV2.set_transforms_v2 ikeV2_demo [] [] []
          [Ikev2.mk_transform_v2 4 1] = .ok s1 ∧
        s1.proposal_v2.number_of_transforms =
          ([] : List Ikev2.TransformAttributeV2).length +
            ([] : List Ikev2.TransformV2).length +
            ([] : List Ikev2.TransformV2).length +
            [Ikev2.mk_transform_v2 4 1].length) :=
  ⟨C4_capacity_check.1 ikeV1_demo _ (by rw [List.length_replicate]; omega),
   C4_capacity_check.2.1 ikeV1_demo v1_demo_list (by decide) (by decide),
   C4_capacity_check.2.2.1 ikeV2_demo [] [] [] _
     (by simp only [List.length_replicate, List.length_nil]; omega),
   C4_capacity_check.2.2.2 ikeV2_demo [] [] [] _ (by decide) (by decide)⟩

/-- C5 counterexample: the v2 DH-group transform list does contain the group
codes 22, 23, 25, 26 and 27. -/
theorem C5_counterexample :
    22 ∈ (Ikev2.IkeV2.build_transforms_v2.2.2.2.map fun t => t.transform_id) ∧
    23 ∈ (Ikev2.IkeV2.build_transforms_v2.2.2.2.map fun t => t.transform_id) ∧
    25 ∈ (Ikev2.IkeV2.build_transforms_v2.2.2.2.map fun t => t.transform_id) ∧
    26 ∈ (Ikev2.IkeV2.build_transforms_v2.2.2.2.map fun t => t.transform_id) ∧
    27 ∈ (Ikev2.IkeV2.build_transforms_v2.2.2.2.map fun t => t.transform_id) := by
  decide

/-- C5 (amended): the v1 cross-product transforms carry no DH group code in
22, 23, 25, 26, 27; the v2 DH-group category instead enumerates exactly the
chained range (1..=2, 5, 14..=34), which is dense through 22-27. -/
theorem C5_dh_group_gaps :
    (∀ t ∈ Ike.IkeV1.build_transforms,
        t.diffie_hellman_attribute.attribute_value_or_length ∉
          ([22, 23, 25, 26, 27] : List Nat)) ∧
    (Ikev2.IkeV2.build_transforms_v2.2.2.2.map fun t => t.transform_id) =
      Ikev2.dhRangeV2 := by
  constructor
  · intro t ht
    rw [mem_build_transforms] at ht
    obtain ⟨a, ha, d, hd, h, hh, e, he, rfl⟩ := ht
    have key : ∀ g ∈ Ike.dhRange, g ∉ ([22, 23, 25, 26, 27] : List Nat) := by decide
    exact key d hd
  · decide

/-- C5 witness: one concrete generated transform avoids the gap codes. -/
theorem C5_witness :
    (Ike.mk_transform 1 1 1 1).diffie_hellman_attribute.attribute_value_or_length ∉
      ([22, 23, 25, 26, 27] : List Nat) :=
  C5_dh_group_gaps.1 (Ike.mk_transform 1 1 1 1) (by decide)

/-- C6: generated transforms all carry the non-terminal marker 3; after a
successful attachment the v1 transform chain's "next" markers are 3
everywhere except the final entry, which is 0; for v2 the encryption, PRF
and integrity categories are passed through unchanged (keeping marker 3)
and only the very last DH-group entry is set to the terminal 0. -/
theorem C6_terminal_chain :
    (∀ t ∈ Ike.IkeV1.build_transforms, t.transform_payload.next_payload = 3) ∧
    (∀ (s : Ike.IkeV1) (ts : List Ike.Transform) (s1 : Ike.IkeV1),
        (∀ t ∈ ts, t.transform_payload.next_payload = 3) →
        Ike.IkeV1.set_transforms s ts = .ok s1 →
        (s1.transform.map fun t => t.transform_payload.next_payload) =
          List.replicate (ts.length - 1) 3 ++ [0]) ∧
    (∀ t ∈ Ikev2.IkeV2.build_transforms_v2.1, t.next_transform = 3) ∧
    (∀ t ∈ Ikev2.IkeV2.build_transforms_v2.2.1, t.next_transform = 3) ∧
    (∀ t ∈ Ikev2.IkeV2.build_transforms_v2.2.2.1, t.next_transform = 3) ∧
    (∀ t ∈ Ikev2.IkeV2.build_transforms_v2.2.2.2, t.next_transform = 3) ∧
    (∀ (s : Ikev2.IkeV2) (e : List Ikev2.TransformAttributeV2)
        (p i d : List Ikev2.TransformV2) (s1 : Ikev2.IkeV2),
        (∀ t ∈ d, t.next_transform = 3) →
        Ikev2.IkeV2.set_transforms_v2 s e p i d = .ok s1 →
        s1.encryption_transforms = e ∧ s1.prf_transform = p ∧
        s1.integrity_algorithm_transform = i ∧
        (s1.diffie_transform.map fun t => t.next_transform) =
          List.replicate (d.length - 1) 3 ++ [0]) := by
  refine ⟨?_, ?_, by decide, by decide, by decide, by decide, ?_⟩
  · intro t ht
    rw [mem_build_transforms] at ht
    obtain ⟨a, ha, d, hd, h, hh, e, he, rfl⟩ := ht
    rfl
  · intro s ts s1 h3 hset
    obtain ⟨h255, hne, rfl⟩ := set_transforms_ok hset
    have hlen := number_from_length 0 ts
    have hne2 : Ike.number_from 0 ts ≠ [] := by
      intro hnil
      rw [hnil] at hlen
      exact hne (by simpa using hlen.symm)
    have h32 : ∀ t ∈ Ike.number_from 0 ts, t.transform_payload.next_payload = 3 :=
      fun t ht => mem_number_from ht h3
    dsimp only
    rw [map_next_set_last_next_zero _ hne2 h32, hlen]
  · intro s e p i d s1 h3 hset
    obtain ⟨h255, hne, rfl⟩ := set_transforms_v2_ok hset
    have hne2 : d ≠ [] := by
      intro hnil
      rw [hnil] at hne
      exact hne rfl
    refine ⟨rfl, rfl, rfl, ?_⟩
    dsimp only
    rw [map_next_set_last_next_zero_v2 d hne2 h3]

set_option maxRecDepth 100000 in
/-- C6 witness: the chain markers on the demo pipeline results. -/
theorem C6_witness :
    (ikeV1_demo_set.transform.map fun t => t.transform_payload.next_payload) =
      List.replicate (v1_demo_list.length - 1) 3 ++ [0] ∧
    (ikeV2_demo_set.diffie_transform.map fun t => t.next_transform) =
      List.replicate (Ikev2.IkeV2.build_transforms_v2.2.2.2.length - 1) 3 ++ [0] :=
  ⟨C6_terminal_chain.2.1 ikeV1_demo v1_demo_list ikeV1_demo_set (by decide) rfl,
   (C6_terminal_chain.2.2.2.2.2.2 ikeV2_demo
      Ikev2.IkeV2.build_transforms_v2.1
      Ikev2.IkeV2.build_transforms_v2.2.1
      Ikev2.IkeV2.build_transforms_v2.2.2.1
      Ikev2.IkeV2.build_transforms_v2.2.2.2
      ikeV2_demo_set (by decide) rfl).2.2.2⟩

set_option maxRecDepth 4000 in
/-- C7: in the v2 encryption category, cipher ids 12 (AES-CBC) and 13
(AES-CTR) each contribute exactly the three records with key lengths
128, 192, 256, and every other iterated cipher id contributes exactly one
record with key-length value 0. -/
theorem C7_encryption_key_lengths :
    ∀ id ∈ Ikev2.encRangeV2,
      ((id = 12 ∨ id = 13) →
        ((Ikev2.IkeV2.build_transforms_v2.1.filter fun t => t.transform_id == id).map
            fun t => t.attr.attribute_value) = [128, 192, 256]) ∧
      (¬(id = 12 ∨ id = 13) →
        ((Ikev2.IkeV2.build_transforms_v2.1.filter fun t => t.transform_id == id).map
            fun t => t.attr.attribute_value) = [0]) := by
  decide

/-- C7 witness: the two behaviours at cipher ids 12 and 1. -/
theorem C7_witness :
    ((Ikev2.IkeV2.build_transforms_v2.1.filter fun t => t.transform_id == 12).map
        fun t => t.attr.attribute_value) = [128, 192, 256] ∧
    ((Ikev2.IkeV2.build_transforms_v2.1.filter fun t => t.transform_id == 1).map
        fun t => t.attr.attribute_value) = [0] :=
  ⟨(C7_encryption_key_lengths 12 (by decide)).1 (Or.inl rfl),
   (C7_encryption_key_lengths 1 (by decide)).2 (by decide)⟩

/-- C8: every v1 attribute-type encoding except life-duration has the
significant (top) bit of its 16-bit value set, life-duration does not, and
the sole v2 attribute type (key length) has it set. -/
theorem C8_significant_bit :
    Nat.testBit (Ike.AttributeType.to_u16 .Encryption) 15 = true ∧
    Nat.testBit (Ike.AttributeType.to_u16 .HashType) 15 = true ∧
    Nat.testBit (Ike.AttributeType.to_u16 .AuthenticationMethod) 15 = true ∧
    Nat.testBit (Ike.AttributeType.to_u16 .DiffieHellmanGroup) 15 = true ∧
    Nat.testBit (Ike.AttributeType.to_u16 .LifeType) 15 = true ∧
    Nat.testBit (Ike.AttributeType.to_u16 .LifeDuration) 15 = false ∧
    Nat.testBit (Ikev2.AttributeType.to_u16 .KeyLength) 15 = true := by
  decide

lemma payload_v1_roundtrip :
    ∀ c, Ike.PayloadTypeV1.try_from_u8 (Ike.PayloadTypeV1.to_u8 c) = some c := by decide

lemma payload_v1_unknown :
    ∀ v < 256, (∀ c, Ike.PayloadTypeV1.to_u8 c ≠ v) →
      Ike.PayloadTypeV1.try_from_u8 v = none := by decide

lemma exchange_v1_roundtrip :
    ∀ c, Ike.ExchangeType.try_from_u8 (Ike.ExchangeType.to_u8 c) = some c := by decide

lemma exchange_v1_unknown :
    ∀ v < 256, (∀ c, Ike.ExchangeType.to_u8 c ≠ v) →
      Ike.ExchangeType.try_from_u8 v = none := by decide

lemma encryption_v1_roundtrip :
    ∀ c, Ike.EncryptionAlgorithmV1.try_from_u8 (Ike.EncryptionAlgorithmV1.to_u16 c) =
      some c := by decide

lemma encryption_v1_unknown :
    ∀ v < 256, (∀ c, Ike.EncryptionAlgorithmV1.to_u16 c ≠ v) →
      Ike.EncryptionAlgorithmV1.try_from_u8 v = none := by decide

lemma hash_roundtrip :
    ∀ c, Ike.HashType.try_from_u8 (Ike.HashType.to_u16 c) = some c := by decide

lemma hash_unknown :
    ∀ v < 256, (∀ c, Ike.HashType.to_u16 c ≠ v) →
      Ike.HashType.try_from_u8 v = none := by decide

lemma auth_roundtrip :
    ∀ c, Ike.AuthenticationMethod.try_from_u8 (Ike.AuthenticationMethod.to_u16 c) =
      some c := by decide

lemma auth_unknown :
    ∀ v < 256, (∀ c, Ike.AuthenticationMethod.to_u16 c ≠ v) →
      Ike.AuthenticationMethod.try_from_u8 v = none := by decide

lemma dh_roundtrip :
    ∀ c, Ike.DhGroup.try_from_u8 (Ike.DhGroup.to_u16 c) = some c := by decide

lemma dh_unknown :
    ∀ v < 256, (∀ c, Ike.DhGroup.to_u16 c ≠ v) →
      Ike.DhGroup.try_from_u8 v = none := by decide

lemma sa_situation_roundtrip :
    ∀ c, Ike.SaSituation.try_from_u32 (Ike.SaSituation.to_u32 c) = some c := by decide

lemma sa_situation_unknown :
    ∀ v : Nat, (∀ c, Ike.SaSituation.to_u32 c ≠ v) →
      Ike.SaSituation.try_from_u32 v = none := by
  intro v h
  unfold Ike.SaSituation.try_from_u32
  rw [if_neg fun hv => (h .IdentityOnly) hv.symm,
    if_neg fun hv => (h .Secrecy) hv.symm,
    if_neg fun hv => (h .Integrity) hv.symm]

lemma payload_v2_roundtrip :
    ∀ c, Ikev2.PayloadTypeV2.try_from_u8 (Ikev2.PayloadTypeV2.to_u8 c) = some c := by
  decide

lemma payload_v2_unknown :
    ∀ v < 256, (∀ c, Ikev2.PayloadTypeV2.to_u8 c ≠ v) →
      Ikev2.PayloadTypeV2.try_from_u8 v = none := by decide

lemma exchange_v2_roundtrip :
    ∀ c, Ikev2.ExchangeTypeV2.try_from_u8 (Ikev2.ExchangeTypeV2.to_u8 c) = some c := by
  decide

lemma exchange_v2_unknown :
    ∀ v < 256, (∀ c, Ikev2.ExchangeTypeV2.to_u8 c ≠ v) →
      Ikev2.ExchangeTypeV2.try_from_u8 v = none := by decide

lemma protocol_id_roundtrip :
    ∀ c, Ikev2.ProtocolId.try_from_u8 (Ikev2.ProtocolId.to_u8 c) = some c := by decide

lemma protocol_id_unknown :
    ∀ v < 256, (∀ c, Ikev2.ProtocolId.to_u8 c ≠ v) →
      Ikev2.ProtocolId.try_from_u8 v = none := by decide

/-- C9: for every bidirectional code table (v1 and v2 payload types,
exchange types, v1 encryption algorithms, hash types, authentication
methods, DH groups, SA situations, v2 protocol ids), decoding the encoded
wire value of any named constant returns that constant, and decoding any
numeric value of the decode domain that is not an encoding of some constant
returns none. -/
theorem C9_table_roundtrip :
    (∀ c, Ike.PayloadTypeV1.try_from_u8 (Ike.PayloadTypeV1.to_u8 c) = some c) ∧
    (∀ v < 256, (∀ c, Ike.PayloadTypeV1.to_u8 c ≠ v) →
      Ike.PayloadTypeV1.try_from_u8 v = none) ∧
    (∀ c, Ike.ExchangeType.try_from_u8 (Ike.ExchangeType.to_u8 c) = some c) ∧
    (∀ v < 256, (∀ c, Ike.ExchangeType.to_u8 c ≠ v) →
      Ike.ExchangeType.try_from_u8 v = none) ∧
    (∀ c, Ike.EncryptionAlgorithmV1.try_from_u8 (Ike.EncryptionAlgorithmV1.to_u16 c) =
      some c) ∧
    (∀ v < 256, (∀ c, Ike.EncryptionAlgorithmV1.to_u16 c ≠ v) →
      Ike.EncryptionAlgorithmV1.try_from_u8 v = none) ∧
    (∀ c, Ike.HashType.try_from_u8 (Ike.HashType.to_u16 c) = some c) ∧
    (∀ v < 256, (∀ c, Ike.HashType.to_u16 c ≠ v) →
      Ike.HashType.try_from_u8 v = none) ∧
    (∀ c, Ike.AuthenticationMethod.try_from_u8 (Ike.AuthenticationMethod.to_u16 c) =
      some c) ∧
    (∀ v < 256, (∀ c, Ike.AuthenticationMethod.to_u16 c ≠ v) →
      Ike.AuthenticationMethod.try_from_u8 v = none) ∧
    (∀ c, Ike.DhGroup.try_from_u8 (Ike.DhGroup.to_u16 c) = some c) ∧
    (∀ v < 256, (∀ c, Ike.DhGroup.to_u16 c ≠ v) →
      Ike.DhGroup.try_from_u8 v = none) ∧
    (∀ c, Ike.SaSituation.try_from_u32 (Ike.SaSituation.to_u32 c) = some c) ∧
    (∀ v : Nat, (∀ c, Ike.SaSituation.to_u32 c ≠ v) →
      Ike.SaSituation.try_from_u32 v = none) ∧
    (∀ c, Ikev2.PayloadTypeV2.try_from_u8 (Ikev2.PayloadTypeV2.to_u8 c) = some c) ∧
    (∀ v < 256, (∀ c, Ikev2.PayloadTypeV2.to_u8 c ≠ v) →
      Ikev2.PayloadTypeV2.try_from_u8 v = none) ∧
    (∀ c, Ikev2.ExchangeTypeV2.try_from_u8 (Ikev2.ExchangeTypeV2.to_u8 c) = some c) ∧
    (∀ v < 256, (∀ c, Ikev2.ExchangeTypeV2.to_u8 c ≠ v) →
      Ikev2.ExchangeTypeV2.try_from_u8 v = none) ∧
    (∀ c, Ikev2.ProtocolId.try_from_u8 (Ikev2.ProtocolId.to_u8 c) = some c) ∧
    (∀ v < 256, (∀ c, Ikev2.ProtocolId.to_u8 c ≠ v) →
      Ikev2.ProtocolId.try_from_u8 v = none) :=
  ⟨payload_v1_roundtrip, payload_v1_unknown, exchange_v1_roundtrip, exchange_v1_unknown,
   encryption_v1_roundtrip, encryption_v1_unknown, hash_roundtrip, hash_unknown,
   auth_roundtrip, auth_unknown, dh_roundtrip, dh_unknown,
   sa_situation_roundtrip, sa_situation_unknown,
   payload_v2_roundtrip, payload_v2_unknown, exchange_v2_roundtrip, exchange_v2_unknown,
   protocol_id_roundtrip, protocol_id_unknown⟩

/-- C9 witness: a round trip, an unknown u8 decode and an unknown u32
decode at concrete values. -/
theorem C9_witness :
    Ike.PayloadTypeV1.try_from_u8 (Ike.PayloadTypeV1.to_u8 .Transform) =
      some .Transform ∧
    Ike.DhGroup.try_from_u8 12 = none ∧
    Ike.SaSituation.try_from_u32 7 = none := by
  have h := C9_table_roundtrip
  exact ⟨h.1 .Transform,
    h.2.2.2.2.2.2.2.2.2.2.2.1 12 (by decide) (by decide),
    h.2.2.2.2.2.2.2.2.2.2.2.2.2.1 7 (by decide)⟩

/-- C10: calling the v1 attachment with an empty transform list, or the v2
attachment with an empty DH-group category (even when the total count is
within the 255 cap), fails with the out-of-bounds index panic rather than
the capacity construction error. -/
theorem C10_empty_list_panics :
    (∀ s : Ike.IkeV1, Ike.IkeV1.set_transforms s [] = .error .indexOutOfBounds) ∧
    (∀ (s : Ikev2.IkeV2) (e : List Ikev2.TransformAttributeV2)
        (p i : List Ikev2.TransformV2),
        e.length + p.length + i.length ≤ 255 →
        Ikev2.IkeV2.set_transforms_v2 s e p i [] = .error .indexOutOfBounds) := by
  constructor
  · intro s
    rfl
  · intro s e p i h
    unfold Ikev2.IkeV2.set_transforms_v2
    rw [if_neg (by simp only [List.length_nil]; omega)]
    rfl

/-- C10 witness: the panic outcomes on the demo fixtures. -/
theorem C10_witness :
    Ike.IkeV1.set_transforms ikeV1_demo [] = .error .indexOutOfBounds ∧
    Ikev2.IkeV2.set_transforms_v2 ikeV2_demo [] [] [] [] =
      .error .indexOutOfBounds :=
  ⟨C10_empty_list_panics.1 ikeV1_demo,
   C10_empty_list_panics.2 ikeV2_demo [] [] [] (by decide)⟩
